import Mathlib

/-!
Shallow embedding of the SignUp registration form
(src/frontend/src/pages/SignUp.tsx): its field/error state, the
incremental validation performed on every change/blur event
(`validate`), and the submission handler (`handleSubmit`), together
with theorems settling the specification claims about them.

Conventions of the embedding:
* TypeScript strings are Lean `String`s.
* A JavaScript truthiness test on a plain string field (`!!s`,
  `if (s)`) is `s != ""`.
* The optional TypeScript field `repeatPassword?: string` is an
  `Option String`: `none` is the absent/`undefined` state, and its
  truthiness test is `truthy`.
* `!value.trim()` holds exactly when every character of `value` is
  whitespace, so the emptiness tests on trimmed strings are embedded
  as `isBlank`.
* The password regex
  `^(?=.*[a-z])(?=.*[A-Z])(?=.*\d)(?=.*[\W_])[a-zA-Z\d\W_]{8,}$`
  is embedded character-wise.  The body class `[a-zA-Z\d\W_]` admits
  every character and, without the `m` flag, `^`/`$` anchor at the
  ends of the input, so the body asserts exactly length >= 8.  In the
  lookaheads, `.` without the `s` flag cannot match a line terminator
  (`\n`, `\r`, U+2028, U+2029), so `(?=.*[X])` asserts a class-`X`
  character whose predecessors are all non-terminators: the witness
  must lie in the segment up to and including the first line
  terminator (`lookaheadRegion`; the terminator itself can be the
  witness for `[\W_]`, the complement of `[A-Za-z0-9]`).
* React state updates inside one event handler are modelled as a
  single transition on the whole component state; the handlers read
  the pre-event state (the closure values) exactly as the source does.
* The awaited `register` call is an external collaborator; its
  outcome is passed in as a `RegisterResult`.  Toast notifications
  and `history.push` navigations are recorded as output lists.
-/

/-- Error text constant `REQUIRED` of the source. -/
def REQUIRED : String := "Required"

/-- Error text constant `PASSWORD_REQUIREMENTS_MISMATCH` of the source. -/
def PASSWORD_REQUIREMENTS_MISMATCH : String :=
  "Password must contain at least 8 characters, one uppercase letter, one lowercase letter, and one number and special character"

/-- Error text constant `PASSWORDS_DO_NOT_MATCH` of the source. -/
def PASSWORDS_DO_NOT_MATCH : String :=
  "Passwords do not match"

/-- The `FormData` interface: the three input field values. -/
structure FormData where
  email : String
  password : String
  passwordValidate : String
deriving Repr, DecidableEq

/-- The `FormErrors` interface.  `repeatPassword` (the cross-field
mismatch error) is optional in the source (`repeatPassword?: string`),
so it is an `Option String` here; `none` is `undefined`. -/
structure FormErrors where
  email : String
  password : String
  repeatPassword : Option String
  passwordValidate : String
deriving Repr, DecidableEq

/-- The component state: `formData`, `errors` and the `isSubmitting`
flag (the `SubmissionStatus`: `true` is `InFlight`, `false` is
`Idle`). -/
structure ComponentState where
  formData : FormData
  errors : FormErrors
  isSubmitting : Bool
deriving Repr, DecidableEq

/-- The `keyof FormData` values that `validate` can receive. -/
inductive FieldName where
  | email
  | password
  | passwordValidate
deriving Repr, DecidableEq

/-- The test `!value.trim()`: the string contains only whitespace characters
(equivalently, trimming it yields the empty string). -/
def isBlank (s : String) : Bool :=
  s.data.all fun c => c.isWhitespace

/-- JavaScript truthiness of the optional `repeatPassword` field:
`undefined` and `""` are falsy, every other string is truthy. -/
def truthy : Option String → Bool
  | none => false
  | some s => s != ""

/-- The helper `validateEmpty`: `value.trim() ? "" : REQUIRED`. -/
def validateEmpty (value : String) : String :=
  if isBlank value then REQUIRED else ""

/-- A line terminator of the JavaScript regex `.` atom: `\n`, `\r`,
U+2028 or U+2029. -/
def isLineTerminator (c : Char) : Bool :=
  c = '\n' || c = '\r' || c = '\u2028' || c = '\u2029'

/-- The segment of the string a lookahead `(?=.*[X])` can reach: `.*`
matches only non-terminators, so the class witness sits at a position
all of whose predecessors are non-terminators — any character up to
and including the first line terminator. -/
def lookaheadRegion (s : String) : List Char :=
  s.data.take ((s.data.takeWhile (fun c => !isLineTerminator c)).length + 1)

/-- The test of `passwordRegex` on a string (see the header comment
for why the regex match reduces to these five conditions). -/
def passwordRegexTest (s : String) : Bool :=
  decide (8 ≤ s.length)
    && (lookaheadRegion s).any (fun c => c.isLower)
    && (lookaheadRegion s).any (fun c => c.isUpper)
    && (lookaheadRegion s).any (fun c => c.isDigit)
    && (lookaheadRegion s).any (fun c => !c.isAlphanum)

/-- The helper `validatePassword`: `Required` for blank input, otherwise the
policy error unless the regex matches. -/
def validatePassword (password : String) : String :=
  if isBlank password then REQUIRED
  else if !passwordRegexTest password then PASSWORD_REQUIREMENTS_MISMATCH
  else ""

/-- The spread update `{...formData, [field]: value}`. -/
def setField (fd : FormData) (field : FieldName) (value : String) : FormData :=
  match field with
  | .email => { fd with email := value }
  | .password => { fd with password := value }
  | .passwordValidate => { fd with passwordValidate := value }

/-- The `validate(field, value)` handler run on every change/blur
event.  It writes the new field value and recomputes errors from the
pre-event state: the email branch touches only the email error; the
password branches recompute that field's `Required` error and the
`repeatPassword` mismatch against the sibling's pre-event value. -/
def validate (st : ComponentState) (field : FieldName) (value : String) :
    ComponentState :=
  let fd := st.formData
  match field with
  | .email =>
      { st with
        formData := setField fd .email value
        errors := { st.errors with email := validateEmpty value } }
  | .password =>
      let passwordsMatch := value == fd.passwordValidate
      { st with
        formData := setField fd .password value
        errors := { st.errors with
          password := validateEmpty value
          repeatPassword :=
            some (if passwordsMatch then "" else PASSWORDS_DO_NOT_MATCH) } }
  | .passwordValidate =>
      let passwordsMatch := value == fd.password
      { st with
        formData := setField fd .passwordValidate value
        errors := { st.errors with
          passwordValidate := validateEmpty value
          repeatPassword :=
            some (if passwordsMatch then "" else PASSWORDS_DO_NOT_MATCH) } }

/-- The submit-time confirmation check, inlined in `handleSubmit`:
`!passwordValidate.trim() ? REQUIRED : password !== passwordValidate ?
PASSWORDS_DO_NOT_MATCH : ""`. -/
def confirmError (password passwordValidate : String) : String :=
  if isBlank passwordValidate then REQUIRED
  else if password != passwordValidate then PASSWORDS_DO_NOT_MATCH
  else ""

/-- Outcome of the awaited external `register` call: either the
promise resolves with a response whose `message` field is absent
(`none`) or a string, or the call throws. -/
inductive RegisterResult where
  | resolved (message : Option String)
  | thrown
deriving Repr, DecidableEq

/-- Everything observable about one run of `handleSubmit`: the
post-event component state, whether the network call was issued, and
the toast and navigation calls emitted, in order. -/
structure SubmitOutcome where
  state : ComponentState
  networkCalled : Bool
  successToasts : List String
  errorToasts : List String
  navigations : List String
deriving Repr, DecidableEq

/-- The `handleSubmit` handler.  It recomputes the three submit-time
errors, replaces the whole `errors` object with just those three
fields (the optional `repeatPassword` key is not in the object
literal, so it becomes `undefined`), aborts if any is non-empty, and
otherwise runs the register call: a truthy `response.message` is a
soft failure (error toast, no navigation), otherwise success toast
plus navigation to `/login`; a thrown call yields the generic error
toast.  `setIsSubmitting(false)` runs in the `finally` block, so the
final state is never in-flight when the call was issued. -/
def handleSubmit (st : ComponentState) (reg : RegisterResult) :
    SubmitOutcome :=
  let email := st.formData.email
  let password := st.formData.password
  let passwordValidate := st.formData.passwordValidate
  let emailError := validateEmpty email
  let passwordError := validatePassword password
  let passwordValidateError := confirmError password passwordValidate
  let errorsAfter : FormErrors :=
    { email := emailError
      password := passwordError
      repeatPassword := none
      passwordValidate := passwordValidateError }
  let stAfterErrors := { st with errors := errorsAfter }
  if emailError != "" || passwordError != "" || passwordValidateError != "" then
    { state := stAfterErrors
      networkCalled := false
      successToasts := []
      errorToasts := []
      navigations := [] }
  else
    match reg with
    | .resolved message =>
        if truthy message then
          { state := { stAfterErrors with isSubmitting := false }
            networkCalled := true
            successToasts := []
            errorToasts := [message.getD ""]
            navigations := [] }
        else
          { state := { stAfterErrors with isSubmitting := false }
            networkCalled := true
            successToasts := ["Registered successfully"]
            errorToasts := []
            navigations := ["/login"] }
    | .thrown =>
        { state := { stAfterErrors with isSubmitting := false }
          networkCalled := true
          successToasts := []
          errorToasts := ["An error occurred while registering"]
          navigations := [] }

/-- The submit button's `disabled` expression:
`isSubmitting || !!errors.email || !!errors.password ||
!!errors.passwordValidate`. -/
def submitDisabled (st : ComponentState) : Bool :=
  st.isSubmitting
    || st.errors.email != ""
    || st.errors.password != ""
    || st.errors.passwordValidate != ""

/-- Whether the mismatch error is rendered:
`errors.repeatPassword && <em>...`. -/
def mismatchShown (e : FormErrors) : Bool :=
  truthy e.repeatPassword

/-- The `useState` initial values of the component. -/
def initialState : ComponentState :=
  { formData := { email := "", password := "", passwordValidate := "" }
    errors :=
      { email := ""
        password := ""
        repeatPassword := some ""
        passwordValidate := "" }
    isSubmitting := false }

example : validatePassword "Abcdef1!" = "" := by decide
example : validatePassword "abcdefgh" = PASSWORD_REQUIREMENTS_MISMATCH := by decide
example : validatePassword "" = REQUIRED := by decide
example : validatePassword "Abc12345!" = "" := by decide

/-! ## Helper lemmas -/

/-- A whitespace character is one of the four ASCII whitespace
characters. -/
theorem whitespace_cases {c : Char} (h : c.isWhitespace = true) :
    c = ' ' ∨ c = '\t' ∨ c = '\r' ∨ c = '\n' := by
  have h' := h
  simp only [Char.isWhitespace, Bool.or_eq_true, decide_eq_true_eq] at h'
  tauto

/-- A string containing a lowercase letter is not blank. -/
theorem isBlank_false_of_lower {s : String}
    (h : ∃ c ∈ s.data, c.isLower = true) : isBlank s = false := by
  obtain ⟨c, hc, hl⟩ := h
  by_contra hbn
  have hb : isBlank s = true := by
    cases hx : isBlank s with
    | false => exact absurd hx hbn
    | true => rfl
  have hw : c.isWhitespace = true := by
    have := List.all_eq_true.mp hb
    simpa using this c hc
  rcases whitespace_cases hw with h1 | h1 | h1 | h1 <;> subst h1 <;>
    exact absurd hl (by decide)

/-- Every character of the lookahead region is a character of the
string. -/
theorem lookaheadRegion_subset {s : String} {c : Char}
    (h : c ∈ lookaheadRegion s) : c ∈ s.data :=
  List.take_subset _ _ h

/-- The Boolean regex test holds exactly when the string has length at
least 8 and the segment up to and including the first line terminator
contains a lowercase letter, an uppercase letter, a digit and a
non-alphanumeric character. -/
theorem passwordRegexTest_iff (s : String) :
    passwordRegexTest s = true ↔
      (8 ≤ s.length ∧
       (∃ c ∈ lookaheadRegion s, c.isLower = true) ∧
       (∃ c ∈ lookaheadRegion s, c.isUpper = true) ∧
       (∃ c ∈ lookaheadRegion s, c.isDigit = true) ∧
       (∃ c ∈ lookaheadRegion s, c.isAlphanum = false)) := by
  simp [passwordRegexTest, List.any_eq_true, Bool.not_eq_true',
    and_assoc]

/-- The handler `handleSubmit` always replaces the whole error object: the three
direct fields receive the freshly computed submit-time errors and the
optional `repeatPassword` key is absent from the object literal. -/
theorem handleSubmit_errors_eq (st : ComponentState) (reg : RegisterResult) :
    (handleSubmit st reg).state.errors =
      { email := validateEmpty st.formData.email
        password := validatePassword st.formData.password
        repeatPassword := none
        passwordValidate :=
          confirmError st.formData.password st.formData.passwordValidate } := by
  unfold handleSubmit
  dsimp only
  split
  · rfl
  · cases reg with
    | resolved message =>
        dsimp only
        split <;> rfl
    | thrown => rfl

/-! ## Claim theorems -/

/-- Claim C3 is false on the code: the input `"ABC123!@\nabcdefg"`
has length 16 and contains a lowercase letter, an uppercase letter, a
digit and a character outside `[A-Za-z0-9]`, yet `validatePassword`
returns the policy error, not the empty string — in the source regex
the lookahead `(?=.*[a-z])` uses `.`, which cannot cross the newline,
and every lowercase letter of this input follows the newline. -/
theorem validatePassword_newline_cex :
    validatePassword "ABC123!@\nabcdefg" =
      PASSWORD_REQUIREMENTS_MISMATCH ∧
    8 ≤ ("ABC123!@\nabcdefg" : String).length ∧
    (∃ c ∈ ("ABC123!@\nabcdefg" : String).data, c.isLower = true) ∧
    (∃ c ∈ ("ABC123!@\nabcdefg" : String).data, c.isUpper = true) ∧
    (∃ c ∈ ("ABC123!@\nabcdefg" : String).data, c.isDigit = true) ∧
    (∃ c ∈ ("ABC123!@\nabcdefg" : String).data, c.isAlphanum = false) := by
  exact ⟨by decide, by decide, by decide, by decide, by decide, by decide⟩

/-- Claim C3 (amended): `validatePassword` (the submit-time password
policy check) returns the empty error exactly when the input has
length at least 8 and the segment up to and including the first line
terminator contains at least one lowercase letter, one uppercase
letter, one digit and one character outside `[A-Za-z0-9]` — the regex
lookaheads use `.`, which cannot match a line terminator, so their
witnesses cannot lie past the first one; it returns `Required` exactly
when the trimmed value is empty, and the policy error exactly in the
remaining case. -/
theorem validatePassword_region_characterization (s : String) :
    (validatePassword s = "" ↔
      (8 ≤ s.length ∧
       (∃ c ∈ lookaheadRegion s, c.isLower = true) ∧
       (∃ c ∈ lookaheadRegion s, c.isUpper = true) ∧
       (∃ c ∈ lookaheadRegion s, c.isDigit = true) ∧
       (∃ c ∈ lookaheadRegion s, c.isAlphanum = false))) ∧
    (validatePassword s = REQUIRED ↔ isBlank s = true) ∧
    (validatePassword s = PASSWORD_REQUIREMENTS_MISMATCH ↔
      (isBlank s = false ∧ passwordRegexTest s = false)) := by
  by_cases hb : isBlank s = true
  · have hreq : validatePassword s = REQUIRED := by
      simp [validatePassword, hb]
    have hnot : passwordRegexTest s = false := by
      cases hx : passwordRegexTest s with
      | false => rfl
      | true =>
          obtain ⟨c, hc, hl⟩ := ((passwordRegexTest_iff s).mp hx).2.1
          have := isBlank_false_of_lower ⟨c, lookaheadRegion_subset hc, hl⟩
          rw [hb] at this
          exact absurd this (by decide)
    refine ⟨?_, ?_, ?_⟩
    · rw [hreq]
      constructor
      · intro h; exact absurd h (by decide)
      · intro h
        have := (passwordRegexTest_iff s).mpr h
        rw [hnot] at this
        exact absurd this (by decide)
    · simp [hreq, hb]
    · rw [hreq]
      constructor
      · intro h; exact absurd h (by decide)
      · rintro ⟨h1, _⟩
        rw [hb] at h1
        exact absurd h1 (by decide)
  · have hb' : isBlank s = false := by
      cases hx : isBlank s with
      | false => rfl
      | true => exact absurd hx hb
    cases hr : passwordRegexTest s with
    | true =>
        have hval : validatePassword s = "" := by
          simp [validatePassword, hb', hr]
        refine ⟨?_, ?_, ?_⟩
        · simp [hval, (passwordRegexTest_iff s).mp hr]
        · rw [hval]
          constructor
          · intro h; exact absurd h.symm (by decide)
          · intro h; rw [h] at hb'; exact absurd hb' (by decide)
        · rw [hval]
          constructor
          · intro h; exact absurd h.symm (by decide)
          · rintro ⟨_, h2⟩; exact absurd h2 (by decide)
    | false =>
        have hval : validatePassword s = PASSWORD_REQUIREMENTS_MISMATCH := by
          simp [validatePassword, hb', hr]
        refine ⟨?_, ?_, ?_⟩
        · rw [hval]
          constructor
          · intro h; exact absurd h (by decide)
          · intro h
            have := (passwordRegexTest_iff s).mpr h
            rw [hr] at this
            exact absurd this (by decide)
        · rw [hval]
          constructor
          · intro h; exact absurd h (by decide)
          · intro h; rw [h] at hb'; exact absurd hb' (by decide)
        · simp [hval, hb', hr]

/-- Claim C1 is false on the code: from a state whose mismatch error
is the non-empty `"Passwords do not match"`, submitting yields an
error state whose `repeatPassword` field is absent (`none`), not the
prior value — `setErrors` in `handleSubmit` builds a fresh object
without the optional `repeatPassword` key, so submit clears the
mismatch instead of preserving it. -/
theorem submit_mismatch_not_preserved_cex :
    (handleSubmit
      { formData :=
          { email := "a@b.com"
            password := "Abc12345!"
            passwordValidate := "Abc12345!" }
        errors :=
          { email := ""
            password := ""
            repeatPassword := some PASSWORDS_DO_NOT_MATCH
            passwordValidate := "" }
        isSubmitting := false }
      (.resolved none)).state.errors.repeatPassword = none ∧
    some PASSWORDS_DO_NOT_MATCH ≠ (none : Option String) := by
  exact ⟨by decide, by decide⟩

/-- Claim C1 (amended): for every component state and every outcome of
the registration call, submit replaces the whole error object: the
email, password and confirmation error fields receive the freshly
computed submit-time values, and the mismatch (`repeatPassword`) field
is cleared to absent — it is neither recomputed nor preserved. -/
theorem submit_replaces_error_state (st : ComponentState)
    (reg : RegisterResult) :
    (handleSubmit st reg).state.errors =
      { email := validateEmpty st.formData.email
        password := validatePassword st.formData.password
        repeatPassword := none
        passwordValidate :=
          confirmError st.formData.password st.formData.passwordValidate } :=
  handleSubmit_errors_eq st reg

/-- Claim C2 is false on the code: starting from the initial state
(whose `password` is the empty string), editing `passwordValidate` to
`"a"` sets the mismatch error to the non-empty
`"Passwords do not match"`, even though the stored password is empty
after trimming — the handler compares the raw strings with no
emptiness condition. -/
theorem mismatch_blank_sibling_cex :
    (validate initialState .passwordValidate "a").errors.repeatPassword =
      some PASSWORDS_DO_NOT_MATCH ∧
    (validate initialState .passwordValidate "a").formData.password = "" ∧
    mismatchShown (validate initialState .passwordValidate "a").errors =
      true := by
  exact ⟨by decide, by decide, by decide⟩

/-- Claim C2 (amended): after any `validate` event on the password or
confirmation field, the mismatch error is non-empty exactly when the
newly entered value differs, as a raw string, from the sibling field's
pre-update stored value — no emptiness or trimming condition is
applied to either side. -/
theorem mismatch_iff_raw_unequal (st : ComponentState) (v : String) :
    mismatchShown (validate st .password v).errors =
      (v != st.formData.passwordValidate) ∧
    mismatchShown (validate st .passwordValidate v).errors =
      (v != st.formData.password) := by
  constructor
  · show truthy (some (if v == st.formData.passwordValidate then ""
        else PASSWORDS_DO_NOT_MATCH)) = (v != st.formData.passwordValidate)
    cases h : v == st.formData.passwordValidate with
    | true => simp [truthy, h, bne]
    | false => simp [truthy, h, bne, PASSWORDS_DO_NOT_MATCH]
  · show truthy (some (if v == st.formData.password then ""
        else PASSWORDS_DO_NOT_MATCH)) = (v != st.formData.password)
    cases h : v == st.formData.password with
    | true => simp [truthy, h, bne]
    | false => simp [truthy, h, bne, PASSWORDS_DO_NOT_MATCH]

/-- Claim C4: editing the password (resp. confirmation) field
recomputes the mismatch error by comparing the new value against the
sibling field's pre-update stored value; editing the email field
updates only the email error, leaving the password, confirmation and
mismatch error fields untouched; and in particular, starting from
`password = passwordValidate = "Abc12345!"`, editing the password to
`"Abc12345!X"` sets the mismatch to `"Passwords do not match"`. -/
theorem validate_mismatch_and_email_frame (st : ComponentState)
    (v : String) :
    (validate st .password v).errors.repeatPassword =
      some (if v == st.formData.passwordValidate then ""
            else PASSWORDS_DO_NOT_MATCH) ∧
    (validate st .passwordValidate v).errors.repeatPassword =
      some (if v == st.formData.password then ""
            else PASSWORDS_DO_NOT_MATCH) ∧
    (validate st .email v).errors.email = validateEmpty v ∧
    (validate st .email v).errors.password = st.errors.password ∧
    (validate st .email v).errors.passwordValidate =
      st.errors.passwordValidate ∧
    (validate st .email v).errors.repeatPassword =
      st.errors.repeatPassword ∧
    (validate
      { formData :=
          { email := "u@e.com"
            password := "Abc12345!"
            passwordValidate := "Abc12345!" }
        errors :=
          { email := ""
            password := ""
            repeatPassword := some ""
            passwordValidate := "" }
        isSubmitting := false }
      .password "Abc12345!X").errors.repeatPassword =
      some PASSWORDS_DO_NOT_MATCH :=
  ⟨rfl, rfl, rfl, rfl, rfl, rfl, by decide⟩

/-- Claim C5: the incremental `validate` path applies only the
`Required` check to the password field (its error becomes
`validateEmpty v`, never the policy error), and no error field can be
set to the password-policy error by `validate` on any field — each
error field after `validate` either kept its old value or is different
from `PASSWORD_REQUIREMENTS_MISMATCH`; the submission path, in
contrast, stores the full `validatePassword` policy check in the
password error field. -/
theorem policy_error_only_from_submit (st : ComponentState)
    (f : FieldName) (v : String) (reg : RegisterResult) :
    (validate st .password v).errors.password = validateEmpty v ∧
    ((validate st f v).errors.email = st.errors.email ∨
      (validate st f v).errors.email ≠ PASSWORD_REQUIREMENTS_MISMATCH) ∧
    ((validate st f v).errors.password = st.errors.password ∨
      (validate st f v).errors.password ≠ PASSWORD_REQUIREMENTS_MISMATCH) ∧
    ((validate st f v).errors.passwordValidate =
        st.errors.passwordValidate ∨
      (validate st f v).errors.passwordValidate ≠
        PASSWORD_REQUIREMENTS_MISMATCH) ∧
    ((validate st f v).errors.repeatPassword = st.errors.repeatPassword ∨
      (validate st f v).errors.repeatPassword ≠
        some PASSWORD_REQUIREMENTS_MISMATCH) ∧
    (handleSubmit st reg).state.errors.password =
      validatePassword st.formData.password := by
  have hve : validateEmpty v ≠ PASSWORD_REQUIREMENTS_MISMATCH := by
    rw [validateEmpty]
    split
    · decide
    · decide
  have hmm : ∀ b : Bool,
      some (if b = true then "" else PASSWORDS_DO_NOT_MATCH) ≠
        some PASSWORD_REQUIREMENTS_MISMATCH := by
    intro b
    cases b
    · decide
    · decide
  refine ⟨rfl, ?_, ?_, ?_, ?_, ?_⟩
  · cases f
    · exact Or.inr hve
    · exact Or.inl rfl
    · exact Or.inl rfl
  · cases f
    · exact Or.inl rfl
    · exact Or.inr hve
    · exact Or.inl rfl
  · cases f
    · exact Or.inl rfl
    · exact Or.inl rfl
    · exact Or.inr hve
  · cases f
    · exact Or.inl rfl
    · exact Or.inr (by
        show some (if (v == st.formData.passwordValidate) = true then ""
          else PASSWORDS_DO_NOT_MATCH) ≠ some PASSWORD_REQUIREMENTS_MISMATCH
        exact hmm _)
    · exact Or.inr (by
        show some (if (v == st.formData.password) = true then ""
          else PASSWORDS_DO_NOT_MATCH) ≠ some PASSWORD_REQUIREMENTS_MISMATCH
        exact hmm _)
  · have h := handleSubmit_errors_eq st reg
    rw [h]

/-- Claim C9: the submit button's `disabled` boolean is `true` exactly
when the submission is in flight or at least one of the email,
password and confirmation error fields is non-empty; and it does not
depend on the mismatch (`repeatPassword`) field — replacing that field
by any value leaves the boolean unchanged. -/
theorem submitDisabled_characterization (st : ComponentState) :
    (submitDisabled st = true ↔
      (st.isSubmitting = true ∨ st.errors.email ≠ "" ∨
       st.errors.password ≠ "" ∨ st.errors.passwordValidate ≠ "")) ∧
    (∀ r : Option String,
      submitDisabled
        { st with errors := { st.errors with repeatPassword := r } } =
        submitDisabled st) := by
  constructor
  · simp [submitDisabled, bne_iff_ne, or_assoc]
  · intro r
    rfl

/-- Claim C6: whenever one of the three recomputed submit-time errors
is non-empty, `handleSubmit` aborts: the fresh errors are stored, no
network call is issued, and no toast or navigation is emitted. -/
theorem submit_rejects_without_network (st : ComponentState)
    (reg : RegisterResult)
    (h : validateEmpty st.formData.email ≠ "" ∨
         validatePassword st.formData.password ≠ "" ∨
         confirmError st.formData.password st.formData.passwordValidate ≠
           "") :
    handleSubmit st reg =
      { state :=
          { st with errors :=
              { email := validateEmpty st.formData.email
                password := validatePassword st.formData.password
                repeatPassword := none
                passwordValidate :=
                  confirmError st.formData.password
                    st.formData.passwordValidate } }
        networkCalled := false
        successToasts := []
        errorToasts := []
        navigations := [] } := by
  have hcond : (validateEmpty st.formData.email != ""
      || validatePassword st.formData.password != ""
      || confirmError st.formData.password st.formData.passwordValidate
          != "") = true := by
    rcases h with h | h | h <;> simp [h]
  unfold handleSubmit
  dsimp only
  rw [if_pos hcond]

/-- Witness for claim C6 at the spec's two examples: submitting
`{email := "", password := "Abc12345!", passwordValidate :=
"Abc12345!"}` rejects with a `Required` email error and no network
call, and submitting `{email := "a@b.com", password := "weak",
passwordValidate := "weak"}` rejects with the password-policy error
and no network call. -/
theorem submit_rejects_without_network_witness :
    (handleSubmit
      { formData :=
          { email := "", password := "Abc12345!"
            passwordValidate := "Abc12345!" }
        errors :=
          { email := "", password := "", repeatPassword := some ""
            passwordValidate := "" }
        isSubmitting := false }
      (.resolved none)).networkCalled = false ∧
    (handleSubmit
      { formData :=
          { email := "", password := "Abc12345!"
            passwordValidate := "Abc12345!" }
        errors :=
          { email := "", password := "", repeatPassword := some ""
            passwordValidate := "" }
        isSubmitting := false }
      (.resolved none)).state.errors.email = REQUIRED ∧
    (handleSubmit
      { formData :=
          { email := "a@b.com", password := "weak"
            passwordValidate := "weak" }
        errors :=
          { email := "", password := "", repeatPassword := some ""
            passwordValidate := "" }
        isSubmitting := false }
      (.resolved none)).networkCalled = false ∧
    (handleSubmit
      { formData :=
          { email := "a@b.com", password := "weak"
            passwordValidate := "weak" }
        errors :=
          { email := "", password := "", repeatPassword := some ""
            passwordValidate := "" }
        isSubmitting := false }
      (.resolved none)).state.errors.password =
      PASSWORD_REQUIREMENTS_MISMATCH := by
  have h1 := submit_rejects_without_network
    { formData :=
        { email := "", password := "Abc12345!"
          passwordValidate := "Abc12345!" }
      errors :=
        { email := "", password := "", repeatPassword := some ""
          passwordValidate := "" }
      isSubmitting := false }
    (.resolved none) (Or.inl (by decide))
  have h2 := submit_rejects_without_network
    { formData :=
        { email := "a@b.com", password := "weak"
          passwordValidate := "weak" }
      errors :=
        { email := "", password := "", repeatPassword := some ""
          passwordValidate := "" }
      isSubmitting := false }
    (.resolved none) (Or.inr (Or.inl (by decide)))
  rw [h1, h2]
  exact ⟨rfl, by decide, rfl, by decide⟩

/-- Claim C7: when the three submit-time validations pass and the
registration call resolves with a response carrying no `message`,
submit issues the network call, emits exactly one success toast and
exactly one navigation to `/login`, no error toast, and the final
submission status is idle. -/
theorem submit_success_flow (st : ComponentState)
    (h1 : validateEmpty st.formData.email = "")
    (h2 : validatePassword st.formData.password = "")
    (h3 : confirmError st.formData.password st.formData.passwordValidate =
      "") :
    (handleSubmit st (.resolved none)).successToasts =
      ["Registered successfully"] ∧
    (handleSubmit st (.resolved none)).errorToasts = [] ∧
    (handleSubmit st (.resolved none)).navigations = ["/login"] ∧
    (handleSubmit st (.resolved none)).networkCalled = true ∧
    (handleSubmit st (.resolved none)).state.isSubmitting = false := by
  unfold handleSubmit
  dsimp only
  rw [h1, h2, h3]
  exact ⟨rfl, rfl, rfl, rfl, rfl⟩

/-- Witness for claim C7: submitting `{email := "a@b.com", password :=
"Abc12345!", passwordValidate := "Abc12345!"}` against a resolving
call with no message yields one success toast, one navigation to
`/login`, and an idle final status. -/
theorem submit_success_flow_witness :
    (handleSubmit
      { formData :=
          { email := "a@b.com", password := "Abc12345!"
            passwordValidate := "Abc12345!" }
        errors :=
          { email := "", password := "", repeatPassword := some ""
            passwordValidate := "" }
        isSubmitting := false }
      (.resolved none)).successToasts = ["Registered successfully"] ∧
    (handleSubmit
      { formData :=
          { email := "a@b.com", password := "Abc12345!"
            passwordValidate := "Abc12345!" }
        errors :=
          { email := "", password := "", repeatPassword := some ""
            passwordValidate := "" }
        isSubmitting := false }
      (.resolved none)).errorToasts = [] ∧
    (handleSubmit
      { formData :=
          { email := "a@b.com", password := "Abc12345!"
            passwordValidate := "Abc12345!" }
        errors :=
          { email := "", password := "", repeatPassword := some ""
            passwordValidate := "" }
        isSubmitting := false }
      (.resolved none)).navigations = ["/login"] ∧
    (handleSubmit
      { formData :=
          { email := "a@b.com", password := "Abc12345!"
            passwordValidate := "Abc12345!" }
        errors :=
          { email := "", password := "", repeatPassword := some ""
            passwordValidate := "" }
        isSubmitting := false }
      (.resolved none)).networkCalled = true ∧
    (handleSubmit
      { formData :=
          { email := "a@b.com", password := "Abc12345!"
            passwordValidate := "Abc12345!" }
        errors :=
          { email := "", password := "", repeatPassword := some ""
            passwordValidate := "" }
        isSubmitting := false }
      (.resolved none)).state.isSubmitting = false :=
  submit_success_flow
    { formData :=
        { email := "a@b.com", password := "Abc12345!"
          passwordValidate := "Abc12345!" }
      errors :=
        { email := "", password := "", repeatPassword := some ""
          passwordValidate := "" }
      isSubmitting := false }
    (by decide) (by decide) (by decide)

/-- Claim C8: with all three submit-time validations passing, a
response resolving with a non-empty `message` yields exactly one error
toast carrying that message, no success toast, no navigation, and an
idle final status; and a thrown registration call yields exactly one
generic error toast, no success toast, no navigation, and an idle
final status. -/
theorem submit_failure_flow (st : ComponentState) (msg : String)
    (hm : msg ≠ "")
    (h1 : validateEmpty st.formData.email = "")
    (h2 : validatePassword st.formData.password = "")
    (h3 : confirmError st.formData.password st.formData.passwordValidate =
      "") :
    ((handleSubmit st (.resolved (some msg))).errorToasts = [msg] ∧
     (handleSubmit st (.resolved (some msg))).successToasts = [] ∧
     (handleSubmit st (.resolved (some msg))).navigations = [] ∧
     (handleSubmit st (.resolved (some msg))).state.isSubmitting =
       false) ∧
    ((handleSubmit st .thrown).errorToasts =
       ["An error occurred while registering"] ∧
     (handleSubmit st .thrown).successToasts = [] ∧
     (handleSubmit st .thrown).navigations = [] ∧
     (handleSubmit st .thrown).state.isSubmitting = false) := by
  have ht : truthy (some msg) = true := by
    simp [truthy, hm]
  constructor
  · unfold handleSubmit
    dsimp only
    rw [h1, h2, h3]
    rw [if_neg (by decide)]
    rw [if_pos ht]
    exact ⟨rfl, rfl, rfl, rfl⟩
  · unfold handleSubmit
    dsimp only
    rw [h1, h2, h3]
    rw [if_neg (by decide)]
    exact ⟨rfl, rfl, rfl, rfl⟩

/-- Witness for claim C8: with all fields valid, a response resolving
with `message := "Email taken"` yields exactly one error toast with
that text, zero navigations and an idle final status; a thrown call
yields the generic error toast, zero navigations and an idle final
status. -/
theorem submit_failure_flow_witness :
    ((handleSubmit
      { formData :=
          { email := "a@b.com", password := "Abc12345!"
            passwordValidate := "Abc12345!" }
        errors :=
          { email := "", password := "", repeatPassword := some ""
            passwordValidate := "" }
        isSubmitting := false }
      (.resolved (some "Email taken"))).errorToasts = ["Email taken"] ∧
     (handleSubmit
      { formData :=
          { email := "a@b.com", password := "Abc12345!"
            passwordValidate := "Abc12345!" }
        errors :=
          { email := "", password := "", repeatPassword := some ""
            passwordValidate := "" }
        isSubmitting := false }
      (.resolved (some "Email taken"))).successToasts = [] ∧
     (handleSubmit
      { formData :=
          { email := "a@b.com", password := "Abc12345!"
            passwordValidate := "Abc12345!" }
        errors :=
          { email := "", password := "", repeatPassword := some ""
            passwordValidate := "" }
        isSubmitting := false }
      (.resolved (some "Email taken"))).navigations = [] ∧
     (handleSubmit
      { formData :=
          { email := "a@b.com", password := "Abc12345!"
            passwordValidate := "Abc12345!" }
        errors :=
          { email := "", password := "", repeatPassword := some ""
            passwordValidate := "" }
        isSubmitting := false }
      (.resolved (some "Email taken"))).state.isSubmitting = false) ∧
    ((handleSubmit
      { formData :=
          { email := "a@b.com", password := "Abc12345!"
            passwordValidate := "Abc12345!" }
        errors :=
          { email := "", password := "", repeatPassword := some ""
            passwordValidate := "" }
        isSubmitting := false }
      .thrown).errorToasts = ["An error occurred while registering"] ∧
     (handleSubmit
      { formData :=
          { email := "a@b.com", password := "Abc12345!"
            passwordValidate := "Abc12345!" }
        errors :=
          { email := "", password := "", repeatPassword := some ""
            passwordValidate := "" }
        isSubmitting := false }
      .thrown).successToasts = [] ∧
     (handleSubmit
      { formData :=
          { email := "a@b.com", password := "Abc12345!"
            passwordValidate := "Abc12345!" }
        errors :=
          { email := "", password := "", repeatPassword := some ""
            passwordValidate := "" }
        isSubmitting := false }
      .thrown).navigations = [] ∧
     (handleSubmit
      { formData :=
          { email := "a@b.com", password := "Abc12345!"
            passwordValidate := "Abc12345!" }
        errors :=
          { email := "", password := "", repeatPassword := some ""
            passwordValidate := "" }
        isSubmitting := false }
      .thrown).state.isSubmitting = false) :=
  submit_failure_flow
    { formData :=
        { email := "a@b.com", password := "Abc12345!"
          passwordValidate := "Abc12345!" }
      errors :=
        { email := "", password := "", repeatPassword := some ""
          passwordValidate := "" }
      isSubmitting := false }
    "Email taken" (by decide) (by decide) (by decide) (by decide)

/-- Claim C10: soft failure is detected by the truthiness of
`response.message`, not its presence — with all validations passing, a
response resolving with `message := some ""` takes the full success
path: one success toast, one navigation to `/login`, and no error
toast. -/
theorem submit_empty_message_is_success (st : ComponentState)
    (h1 : validateEmpty st.formData.email = "")
    (h2 : validatePassword st.formData.password = "")
    (h3 : confirmError st.formData.password st.formData.passwordValidate =
      "") :
    (handleSubmit st (.resolved (some ""))).successToasts =
      ["Registered successfully"] ∧
    (handleSubmit st (.resolved (some ""))).errorToasts = [] ∧
    (handleSubmit st (.resolved (some ""))).navigations = ["/login"] ∧
    (handleSubmit st (.resolved (some ""))).networkCalled = true := by
  unfold handleSubmit
  dsimp only
  rw [h1, h2, h3]
  rw [if_neg (by decide)]
  rw [if_neg (by decide)]
  exact ⟨rfl, rfl, rfl, rfl⟩

/-- Witness for claim C10: at a concrete all-valid state, a resolving
response whose `message` is the empty string is handled as a success
with a navigation. -/
theorem submit_empty_message_is_success_witness :
    (handleSubmit
      { formData :=
          { email := "a@b.com", password := "Abc12345!"
            passwordValidate := "Abc12345!" }
        errors :=
          { email := "", password := "", repeatPassword := some ""
            passwordValidate := "" }
        isSubmitting := false }
      (.resolved (some ""))).successToasts = ["Registered successfully"] ∧
    (handleSubmit
      { formData :=
          { email := "a@b.com", password := "Abc12345!"
            passwordValidate := "Abc12345!" }
        errors :=
          { email := "", password := "", repeatPassword := some ""
            passwordValidate := "" }
        isSubmitting := false }
      (.resolved (some ""))).errorToasts = [] ∧
    (handleSubmit
      { formData :=
          { email := "a@b.com", password := "Abc12345!"
            passwordValidate := "Abc12345!" }
        errors :=
          { email := "", password := "", repeatPassword := some ""
            passwordValidate := "" }
        isSubmitting := false }
      (.resolved (some ""))).navigations = ["/login"] ∧
    (handleSubmit
      { formData :=
          { email := "a@b.com", password := "Abc12345!"
            passwordValidate := "Abc12345!" }
        errors :=
          { email := "", password := "", repeatPassword := some ""
            passwordValidate := "" }
        isSubmitting := false }
      (.resolved (some ""))).networkCalled = true :=
  submit_empty_message_is_success
    { formData :=
        { email := "a@b.com", password := "Abc12345!"
          passwordValidate := "Abc12345!" }
      errors :=
        { email := "", password := "", repeatPassword := some ""
          passwordValidate := "" }
      isSubmitting := false }
    (by decide) (by decide) (by decide)
